import Mathlib

/-!
# Verification of the `dbutils` wrappers (db-example)

Shallow embedding of `src/dbutils/wrappers.go`: thin helpers around a SQL
driver (`Exec`, `Select`, `Get`, `SelectMaps`, `GetMap`, their named-parameter
variants) and the transaction runner `RunTx`.

Modelling conventions:
* Go `error` values become `Option GoError` (`none` = nil error).
* `multierr.Combine` of two errors is represented by the binary node
  `GoError.multi`; the flat list `multierr` exposes via `Errors()` is
  recovered by `GoError.flatten`, so aggregation claims are stated through
  `errList`.
* The third-party driver (`sqlx`, `database/sql`) is an oracle: a `Db`
  structure of response functions.  The helpers' own control flow is
  translated line by line from the Go source.
* Side effects that Go performs through the driver (commit, rollback,
  cursor close, driver invocations) are made observable as ghost outputs:
  an event trace for `RunTx`, a `closed` flag and allocation-size hints for
  `SelectMaps`, and a `DriverCall` list for the query helpers.
-/

/-- A SQL argument value (Go `interface{}` as passed in arg lists). -/
inductive Value where
  | vNull
  | vInt (n : Int)
  | vStr (s : String)
deriving DecidableEq, Repr

/-- Go error values as produced in `wrappers.go`.
`driver` is an opaque error coming back from the underlying library;
`sqlWrapped` models `sqlErr` (wrapping with the literal query text and the
argument list); `beginWrapped` models `fmt.Errorf("begin transaction: %w", err)`;
`multi` models `multierr.Combine` of two non-nil errors. -/
inductive GoError where
  | driver (msg : String)
  | sqlWrapped (query : String) (args : List Value) (inner : GoError)
  | beginWrapped (inner : GoError)
  | multi (fst snd : GoError)
deriving DecidableEq, Repr

/-- The flat list of cause errors, as `multierr`'s `Errors()` reports it. -/
def GoError.flatten : GoError → List GoError
  | .multi a b => a.flatten ++ b.flatten
  | e => [e]

/-- Causes of an optional error: nil has none. -/
def errList : Option GoError → List GoError
  | none => []
  | some e => e.flatten

/-- `multierr.Combine(a, b)`: nil if both nil, the non-nil one if one is nil,
otherwise an aggregate holding both (observed flat via `errList`). -/
def combine (a b : Option GoError) : Option GoError :=
  match a, b with
  | none, b => b
  | some a, none => some a
  | some a, some b => some (.multi a b)

/-- `sqlErr(err, query, args...)` from `wrappers.go`. -/
def sqlErr (err : GoError) (query : String) (args : List Value) : GoError :=
  .sqlWrapped query args err

theorem errList_combine (a b : Option GoError) :
    errList (combine a b) = errList a ++ errList b := by
  cases a <;> cases b <;> simp [combine, errList, GoError.flatten]

theorem combine_eq_none_iff (a b : Option GoError) (ha : ∀ x y, a ≠ some (.multi x y))
    (hb : ∀ x y, b ≠ some (.multi x y)) :
    combine a b = none ↔ a = none ∧ b = none := by
  cases a with
  | none =>
    cases b <;> simp [combine]
  | some ea =>
    cases b <;> simp [combine]

/-! ## The transaction runner `RunTx` -/

/-- Observable transaction-lifecycle events during a `RunTx` invocation. -/
inductive TxEvent where
  | began
  | ranWork
  | committed
  | rolledBack
deriving DecidableEq, Repr

/-- The environment of one `RunTx` invocation: what `db.BeginTxx` returns,
what the unit of work `f` returns when invoked, and what `tx.Commit` /
`tx.Rollback` would return if called.  `none` means success/nil error. -/
structure TxEnv where
  beginResult : Option GoError
  workResult : Option GoError
  commitResult : Option GoError
  rollbackResult : Option GoError
deriving Repr

/-- The deferred function of `RunTx` (wrappers.go:159-165): given the current
named return `err`, roll back and combine if it is non-nil, else commit.
Returns the final error and the terminal events it performs. -/
def runTxDeferred (env : TxEnv) (err : Option GoError) :
    Option GoError × List TxEvent :=
  match err with
  | some e => (combine (some e) env.rollbackResult, [.rolledBack])
  | none => (env.commitResult, [.committed])

/-- `RunTx` (wrappers.go:148-168): begin a transaction, fail immediately with
a begin-wrapped error if that fails; otherwise run the unit of work and let
the deferred function commit or roll back.  Returns the error and the event
trace. -/
def RunTx (env : TxEnv) : Option GoError × List TxEvent :=
  match env.beginResult with
  | some e => (some (.beginWrapped e), [])
  | none =>
    let bodyErr := env.workResult
    let (finalErr, deferEvents) := runTxDeferred env bodyErr
    (finalErr, [.began, .ranWork] ++ deferEvents)

/-- A transaction is left open if it was begun but neither committed nor
rolled back. -/
def txOpenAfter (trace : List TxEvent) : Bool :=
  trace.contains .began && !trace.contains .committed && !trace.contains .rolledBack

/-- C1: if begin succeeds and the unit of work fails, `RunTx` rolls back
exactly once, and the returned error aggregates the work failure with any
rollback failure, dropping neither. -/
theorem runTx_work_fails_rolls_back (env : TxEnv) (e : GoError)
    (hb : env.beginResult = none) (hw : env.workResult = some e) :
    (RunTx env).2.count .rolledBack = 1 ∧
    (RunTx env).2.count .committed = 0 ∧
    (RunTx env).1 = combine (some e) env.rollbackResult ∧
    errList (RunTx env).1 = errList (some e) ++ errList env.rollbackResult := by
  simp [RunTx, hb, hw, runTxDeferred, List.count_cons, errList_combine]

theorem runTx_work_fails_rolls_back_witness :
    ((⟨none, some (.driver "dup key"), none, some (.driver "conn lost")⟩ : TxEnv).beginResult = none) ∧
    ((RunTx ⟨none, some (.driver "dup key"), none, some (.driver "conn lost")⟩).2.count .rolledBack = 1 ∧
     (RunTx ⟨none, some (.driver "dup key"), none, some (.driver "conn lost")⟩).2.count .committed = 0 ∧
     (RunTx ⟨none, some (.driver "dup key"), none, some (.driver "conn lost")⟩).1 =
       combine (some (.driver "dup key")) (some (.driver "conn lost")) ∧
     errList (RunTx ⟨none, some (.driver "dup key"), none, some (.driver "conn lost")⟩).1 =
       errList (some (.driver "dup key")) ++ errList (some (.driver "conn lost"))) :=
  ⟨rfl, runTx_work_fails_rolls_back ⟨none, some (.driver "dup key"), none, some (.driver "conn lost")⟩
    (.driver "dup key") rfl rfl⟩

/-- C2: if begin succeeds and the unit of work succeeds, `RunTx` commits
exactly once and never rolls back; the commit result (nil or its failure)
is exactly what `RunTx` returns. -/
theorem runTx_work_succeeds_commits (env : TxEnv)
    (hb : env.beginResult = none) (hw : env.workResult = none) :
    (RunTx env).2.count .committed = 1 ∧
    (RunTx env).2.count .rolledBack = 0 ∧
    (RunTx env).1 = env.commitResult := by
  simp [RunTx, hb, hw, runTxDeferred, List.count_cons]

theorem runTx_work_succeeds_commits_witness :
    ((⟨none, none, some (.driver "commit refused"), none⟩ : TxEnv).beginResult = none) ∧
    ((RunTx ⟨none, none, some (.driver "commit refused"), none⟩).2.count .committed = 1 ∧
     (RunTx ⟨none, none, some (.driver "commit refused"), none⟩).2.count .rolledBack = 0 ∧
     (RunTx ⟨none, none, some (.driver "commit refused"), none⟩).1 = some (.driver "commit refused")) :=
  ⟨rfl, runTx_work_succeeds_commits ⟨none, none, some (.driver "commit refused"), none⟩ rfl rfl⟩

/-- C3 counterexample: when opening the transaction fails, neither commit nor
rollback occurs, so "exactly one of commit or rollback occurs per invocation"
fails on that path (commit count + rollback count is 0, not 1). -/
theorem runTx_begin_fail_no_terminal_event :
    (RunTx ⟨some (.driver "begin refused"), none, none, none⟩).2.count .committed +
      (RunTx ⟨some (.driver "begin refused"), none, none, none⟩).2.count .rolledBack = 0 ∧
    (0 : Nat) ≠ 1 := by
  constructor
  · rfl
  · decide

/-- C3 (amended): whenever the transaction opens successfully, exactly one of
commit or rollback occurs; and on every invocation — including when opening
fails — the transaction is never left open after `RunTx` returns. -/
theorem runTx_exactly_one_terminal (env : TxEnv) :
    (env.beginResult = none →
      (RunTx env).2.count .committed + (RunTx env).2.count .rolledBack = 1) ∧
    txOpenAfter (RunTx env).2 = false := by
  constructor
  · intro hb
    cases hw : env.workResult <;>
      simp [RunTx, hb, hw, runTxDeferred, List.count_cons]
  · cases hb : env.beginResult with
    | none =>
      cases hw : env.workResult <;>
        simp [RunTx, hb, hw, runTxDeferred, txOpenAfter, List.contains]
    | some e =>
      simp [RunTx, hb, txOpenAfter, List.contains]

theorem runTx_exactly_one_terminal_witness :
    ((⟨none, none, none, none⟩ : TxEnv).beginResult = none) ∧
    ((RunTx ⟨none, none, none, none⟩).2.count .committed +
       (RunTx ⟨none, none, none, none⟩).2.count .rolledBack = 1) ∧
    txOpenAfter (RunTx ⟨none, none, none, none⟩).2 = false := by
  refine ⟨rfl, ?_, (runTx_exactly_one_terminal ⟨none, none, none, none⟩).2⟩
  exact (runTx_exactly_one_terminal ⟨none, none, none, none⟩).1 rfl

/-- C4: when opening the transaction fails, `RunTx` returns the begin failure
wrapped as a begin-transaction error, with an empty event trace: the unit of
work is not invoked and neither commit nor rollback is attempted. -/
theorem runTx_begin_fails_immediately (env : TxEnv) (e : GoError)
    (hb : env.beginResult = some e) :
    (RunTx env).1 = some (.beginWrapped e) ∧
    (RunTx env).2 = [] ∧
    (RunTx env).2.count .ranWork = 0 ∧
    (RunTx env).2.count .committed = 0 ∧
    (RunTx env).2.count .rolledBack = 0 := by
  simp [RunTx, hb]

theorem runTx_begin_fails_immediately_witness :
    ((⟨some (.driver "no connection"), none, none, none⟩ : TxEnv).beginResult =
      some (.driver "no connection")) ∧
    ((RunTx ⟨some (.driver "no connection"), none, none, none⟩).1 =
       some (.beginWrapped (.driver "no connection")) ∧
     (RunTx ⟨some (.driver "no connection"), none, none, none⟩).2 = [] ∧
     (RunTx ⟨some (.driver "no connection"), none, none, none⟩).2.count .ranWork = 0 ∧
     (RunTx ⟨some (.driver "no connection"), none, none, none⟩).2.count .committed = 0 ∧
     (RunTx ⟨some (.driver "no connection"), none, none, none⟩).2.count .rolledBack = 0) :=
  ⟨rfl, runTx_begin_fails_immediately ⟨some (.driver "no connection"), none, none, none⟩
    (.driver "no connection") rfl⟩

/-! ## Query helpers -/

/-- A column-name-to-value row mapping (the content `MapScan` produces;
keys are the distinct column names of the result set). -/
abbrev RowMap := List (String × Value)

/-- The argument map of a named-parameter call (Go `interface{}` arg:
a struct or map binding names to values). -/
abbrev Arg := List (String × Value)

/-- `sql.Result` of an execute call. -/
structure SqlResult where
  lastInsertId : Int
  rowsAffected : Int
deriving DecidableEq, Repr

/-- The result-set cursor returned by `QueryxContext`: the rows `Next`
yields (each scanned by `MapScan` into a mapping, or failing), the value of
`rows.Err()` after iteration ends, and the value of `rows.Close()`. -/
structure RowsData where
  items : List (Except GoError RowMap)
  iterErr : Option GoError
  closeErr : Option GoError

/-- The single row handle returned by `QueryRowxContext`: its `Err()` value
and the outcome of `MapScan` on it. -/
structure Row where
  rowErr : Option GoError
  scanMap : RowMap
  scanErr : Option GoError

/-- The underlying driver (sqlx / database/sql), modelled as an oracle of
response functions keyed by query text and arguments.  `named` models
`sqlx.Named` (it returns the positional query, the argument list and an
error); `rebind` models `db.Rebind`. -/
structure Db where
  named : String → Arg → String × List Value × Option GoError
  rebind : String → String
  execContext : String → List Value → SqlResult × Option GoError
  selectContext : String → List Value → Except GoError (List RowMap)
  getContext : String → List Value → Except GoError RowMap
  queryxContext : String → List Value → Except GoError RowsData
  queryRowxContext : String → List Value → Row

/-- A ghost record of one invocation of the underlying driver. -/
inductive DriverCall where
  | exec (query : String) (args : List Value)
  | selectMany (query : String) (args : List Value)
  | getOne (query : String) (args : List Value)
  | queryx (query : String) (args : List Value)
  | queryRowx (query : String) (args : List Value)
deriving DecidableEq, Repr

/-- `namedQuery` (wrappers.go:16-22): expand named placeholders via
`sqlx.Named`; on failure return a binding error wrapped with the query text
and the (partial) argument list. -/
def namedQuery (db : Db) (query : String) (arg : Arg) :
    String × List Value × Option GoError :=
  match db.named query arg with
  | (_, args, some e) => ("", [], some (sqlErr e query args))
  | (nq, args, none) => (nq, args, none)

/-- `Exec` (wrappers.go:24-31): run `ExecContext`; on failure wrap the error
with query text and arguments, passing the driver's result through either way. -/
def Exec (db : Db) (query : String) (args : List Value) :
    (SqlResult × Option GoError) × List DriverCall :=
  let (res, err) := db.execContext query args
  (match err with
   | some e => (res, some (sqlErr e query args))
   | none => (res, none),
   [.exec query args])

/-- `NamedExec` (wrappers.go:33-40): expand named parameters, then delegate
to `Exec` on the rebound query; a binding failure is returned as-is with no
driver call. -/
def NamedExec (db : Db) (query : String) (arg : Arg) :
    (Option SqlResult × Option GoError) × List DriverCall :=
  match namedQuery db query arg with
  | (_, _, some e) => ((none, some e), [])
  | (nq, args, none) =>
    let r := Exec db (db.rebind nq) args
    ((some r.1.1, r.1.2), r.2)

/-- `Select` (wrappers.go:42-48): run `sqlx.SelectContext`; on failure wrap
the error with query text and arguments, otherwise the destination holds the
driver's rows.  The Go out-parameter `dest` is modelled as the returned
`Option (List RowMap)` (`none` when the driver failed). -/
def Select (db : Db) (query : String) (args : List Value) :
    (Option (List RowMap) × Option GoError) × List DriverCall :=
  (match db.selectContext query args with
   | .error e => (none, some (sqlErr e query args))
   | .ok rowsres => (some rowsres, none),
   [.selectMany query args])

/-- `NamedSelect` (wrappers.go:50-57). -/
def NamedSelect (db : Db) (query : String) (arg : Arg) :
    (Option (List RowMap) × Option GoError) × List DriverCall :=
  match namedQuery db query arg with
  | (_, _, some e) => ((none, some e), [])
  | (nq, args, none) => Select db (db.rebind nq) args

/-- `Get` (wrappers.go:59-65): run `sqlx.GetContext`; on failure wrap the
error with query text and arguments. -/
def Get (db : Db) (query : String) (args : List Value) :
    (Option RowMap × Option GoError) × List DriverCall :=
  (match db.getContext query args with
   | .error e => (none, some (sqlErr e query args))
   | .ok row => (some row, none),
   [.getOne query args])

/-- `NamedGet` (wrappers.go:67-74). -/
def NamedGet (db : Db) (query : String) (arg : Arg) :
    (Option RowMap × Option GoError) × List DriverCall :=
  match namedQuery db query arg with
  | (_, _, some e) => ((none, some e), [])
  | (nq, args, none) => Get db (db.rebind nq) args

/-- The outcome of `SelectMaps`: the returned slice (`none` models a Go nil
slice), the returned error, whether the cursor was closed before returning,
and the size hint each per-row `make(map[...], n)` allocation received
(`none` for the plain `map[string]interface{}{}` literal). -/
structure SelectMapsOut where
  ret : Option (List RowMap)
  err : Option GoError
  closed : Bool
  hints : List (Option Nat)

/-- The row loop of `SelectMaps` (wrappers.go:88-101): for each row, allocate
a map (`numCols < 0`: empty literal; otherwise sized to `numCols`, the length
of the previous row's map), `MapScan` into it, and on scan failure return the
error.  Accumulates the maps and the allocation hints. -/
def selectMapsLoop (items : List (Except GoError RowMap)) (numCols : Int)
    (acc : List RowMap) (hintsAcc : List (Option Nat)) :
    (List RowMap × List (Option Nat)) ⊕ (GoError × List (Option Nat)) :=
  match items with
  | [] => .inl (acc, hintsAcc)
  | item :: rest =>
    let hint : Option Nat := if numCols < 0 then none else some numCols.toNat
    match item with
    | .error e => .inr (e, hintsAcc ++ [hint])
    | .ok m => selectMapsLoop rest (Int.ofNat m.length) (acc ++ [m]) (hintsAcc ++ [hint])

/-- The body of `SelectMaps` after a successful query and before the deferred
close (wrappers.go:86-107): initialise `ret` to an empty (non-nil) slice, run
the row loop, then check `rows.Err()`; scan and iteration failures are
wrapped with query text and arguments and return a nil slice. -/
def selectMapsBody (rows : RowsData) (query : String) (args : List Value) :
    Option (List RowMap) × Option GoError × List (Option Nat) :=
  match selectMapsLoop rows.items (-1) [] [] with
  | .inr (e, hints) => (none, some (sqlErr e query args), hints)
  | .inl (acc, hints) =>
    match rows.iterErr with
    | some e => (none, some (sqlErr e query args), hints)
    | none => (some acc, none, hints)

/-- `SelectMaps` (wrappers.go:76-108): query; on failure wrap the error (no
cursor exists, nothing to close).  Otherwise run the body and, as the
deferred function does on every return path, close the cursor and combine
any close error with the body's error. -/
def SelectMaps (db : Db) (query : String) (args : List Value) :
    SelectMapsOut × List DriverCall :=
  match db.queryxContext query args with
  | .error e =>
    ({ ret := none, err := some (sqlErr e query args), closed := false, hints := [] },
     [.queryx query args])
  | .ok rows =>
    let body := selectMapsBody rows query args
    ({ ret := body.1, err := combine body.2.1 rows.closeErr, closed := true,
       hints := body.2.2 },
     [.queryx query args])

/-- `NamedSelectMaps` (wrappers.go:110-117). -/
def NamedSelectMaps (db : Db) (query : String) (arg : Arg) :
    SelectMapsOut × List DriverCall :=
  match namedQuery db query arg with
  | (_, _, some e) => ({ ret := none, err := some e, closed := false, hints := [] }, [])
  | (nq, args, none) => SelectMaps db (db.rebind nq) args

/-- `GetMap` (wrappers.go:119-131): fetch one row; a row error or a scan
failure is wrapped with query text and arguments, otherwise the scanned map
is returned. -/
def GetMap (db : Db) (query : String) (args : List Value) :
    (Option RowMap × Option GoError) × List DriverCall :=
  let row := db.queryRowxContext query args
  (match row.rowErr with
   | some e => (none, some (sqlErr e query args))
   | none =>
     match row.scanErr with
     | some e => (none, some (sqlErr e query args))
     | none => (some row.scanMap, none),
   [.queryRowx query args])

/-- `NamedGetMap` (wrappers.go:133-140). -/
def NamedGetMap (db : Db) (query : String) (arg : Arg) :
    (Option RowMap × Option GoError) × List DriverCall :=
  match namedQuery db query arg with
  | (_, _, some e) => ((none, some e), [])
  | (nq, args, none) => GetMap db (db.rebind nq) args

/-! ## Auxiliary observations and sample drivers -/

/-- Whether an error is a `sqlErr` wrapping (carries query text and args). -/
def GoError.isSqlWrapped : GoError → Bool
  | .sqlWrapped _ _ _ => true
  | _ => false

/-- The allocation hints the row loop emits for a run of successfully
scanned rows, starting from a given `numCols`. -/
def loopHints : List RowMap → Int → List (Option Nat)
  | [], _ => []
  | m :: rest, numCols =>
    (if numCols < 0 then none else some numCols.toNat) :: loopHints rest (Int.ofNat m.length)

theorem loopHints_length (maps : List RowMap) (numCols : Int) :
    (loopHints maps numCols).length = maps.length := by
  induction maps generalizing numCols with
  | nil => rfl
  | cons m rest ih => simp [loopHints, ih]

theorem selectMapsLoop_all_ok (maps : List RowMap) (numCols : Int)
    (acc : List RowMap) (hintsAcc : List (Option Nat)) :
    selectMapsLoop (maps.map Except.ok) numCols acc hintsAcc =
      .inl (acc ++ maps, hintsAcc ++ loopHints maps numCols) := by
  induction maps generalizing numCols acc hintsAcc with
  | nil => simp [selectMapsLoop, loopHints]
  | cons m rest ih => simp [selectMapsLoop, loopHints, ih]

theorem selectMapsLoop_first_error (pre : List RowMap) (e : GoError)
    (rest : List (Except GoError RowMap)) (numCols : Int)
    (acc : List RowMap) (hintsAcc : List (Option Nat)) :
    ∃ hints, selectMapsLoop (pre.map Except.ok ++ .error e :: rest) numCols acc hintsAcc =
      .inr (e, hints) := by
  induction pre generalizing numCols acc hintsAcc with
  | nil => exact ⟨_, rfl⟩
  | cons m r ih =>
    simp only [List.map_cons, List.cons_append, selectMapsLoop]
    exact ih (Int.ofNat m.length) (acc ++ [m]) _

theorem loopHints_uniform (c : Nat) (rest : List RowMap)
    (h : ∀ x ∈ rest, x.length = c) :
    loopHints rest (Int.ofNat c) = List.replicate rest.length (some c) := by
  induction rest with
  | nil => rfl
  | cons m r ih =>
    have hm : m.length = c := h m (by simp)
    have hnn : ¬ ((c : Int) < 0) := by omega
    have ih' := ih fun x hx => h x (by simp [hx])
    simp [loopHints, hm, Int.ofNat_eq_natCast, hnn, List.replicate_succ] at ih' ⊢
    exact ih'

/-- One sample row mapping, as in the example program's `test_users` table. -/
def sampleRow : RowMap := [("id", .vInt 1), ("login", .vStr "ivanov")]

/-- A driver on which every call succeeds and yields `sampleRow`. -/
def dbOk : Db :=
  ⟨fun q _ => (q, [.vStr "petrov"], none),
   fun q => q,
   fun _ _ => (⟨0, 1⟩, none),
   fun _ _ => .ok [sampleRow],
   fun _ _ => .ok sampleRow,
   fun _ _ => .ok ⟨[.ok sampleRow], none, none⟩,
   fun _ _ => ⟨none, sampleRow, none⟩⟩

/-- A driver whose query succeeds with an empty result set but whose cursor
close fails. -/
def dbCloseFail : Db :=
  ⟨fun q _ => (q, [], none),
   fun q => q,
   fun _ _ => (⟨0, 0⟩, none),
   fun _ _ => .ok [],
   fun _ _ => .ok [],
   fun _ _ => .ok ⟨[], none, some (.driver "close failed")⟩,
   fun _ _ => ⟨none, [], none⟩⟩

/-- A driver whose query yields a single two-column row. -/
def dbOneRowTwoCols : Db :=
  ⟨fun q _ => (q, [], none),
   fun q => q,
   fun _ _ => (⟨0, 0⟩, none),
   fun _ _ => .ok [],
   fun _ _ => .ok [],
   fun _ _ => .ok ⟨[.ok [("a", .vInt 1), ("b", .vInt 2)]], none, none⟩,
   fun _ _ => ⟨none, [], none⟩⟩

/-- A driver on which named-parameter expansion fails. -/
def dbNamedFail : Db :=
  ⟨fun _ _ => ("", [], some (.driver "could not find name x")),
   fun q => q,
   fun _ _ => (⟨0, 0⟩, none),
   fun _ _ => .ok [],
   fun _ _ => .ok [],
   fun _ _ => .ok ⟨[], none, none⟩,
   fun _ _ => ⟨none, [], none⟩⟩

/-- A driver whose query yields a row that fails to scan, and whose cursor
close also fails. -/
def dbScanAndCloseFail : Db :=
  ⟨fun q _ => (q, [], none),
   fun q => q,
   fun _ _ => (⟨0, 0⟩, none),
   fun _ _ => .ok [],
   fun _ _ => .ok [],
   fun _ _ => .ok ⟨[.error (.driver "scan: type mismatch")], none,
     some (.driver "close failed")⟩,
   fun _ _ => ⟨none, [], none⟩⟩

/-! ## Query-helper claims -/

/-- C5 counterexample: in `SelectMaps` the underlying query call succeeds,
yet the helper returns a non-nil error — the cursor-close failure — and that
error is returned as-is, not wrapped with the query text and argument list. -/
theorem selectMaps_close_error_not_wrapped :
    dbCloseFail.queryxContext "SELECT login FROM test_users" [] =
      .ok ⟨[], none, some (.driver "close failed")⟩ ∧
    (SelectMaps dbCloseFail "SELECT login FROM test_users" []).1.err =
      some (.driver "close failed") ∧
    GoError.isSqlWrapped (.driver "close failed") = false :=
  ⟨rfl, rfl, rfl⟩

/-- C5 (amended): for `Exec`, `Select`, `Get` and `GetMap`, a failing driver
call yields an error wrapped with the literal query text and the argument
list, and a successful call returns the driver's result unchanged with no
error.  In `SelectMaps`, a failure of the query itself is likewise wrapped,
and a fully successful run (all rows scanned, no iteration error, clean
close) returns the scanned maps with no error; a cursor-close failure,
however, is combined into the error unwrapped. -/
theorem query_helpers_wrap_driver_errors (db : Db) (q : String) (a : List Value) :
    (∀ res e, db.execContext q a = (res, some e) →
      (Exec db q a).1 = (res, some (sqlErr e q a))) ∧
    (∀ res, db.execContext q a = (res, none) → (Exec db q a).1 = (res, none)) ∧
    (∀ e, db.selectContext q a = .error e →
      (Select db q a).1 = (none, some (sqlErr e q a))) ∧
    (∀ rs, db.selectContext q a = .ok rs → (Select db q a).1 = (some rs, none)) ∧
    (∀ e, db.getContext q a = .error e →
      (Get db q a).1 = (none, some (sqlErr e q a))) ∧
    (∀ r, db.getContext q a = .ok r → (Get db q a).1 = (some r, none)) ∧
    (∀ e, (db.queryRowxContext q a).rowErr = some e →
      (GetMap db q a).1 = (none, some (sqlErr e q a))) ∧
    (∀ e, (db.queryRowxContext q a).rowErr = none →
      (db.queryRowxContext q a).scanErr = some e →
      (GetMap db q a).1 = (none, some (sqlErr e q a))) ∧
    ((db.queryRowxContext q a).rowErr = none →
      (db.queryRowxContext q a).scanErr = none →
      (GetMap db q a).1 = (some (db.queryRowxContext q a).scanMap, none)) ∧
    (∀ e, db.queryxContext q a = .error e →
      (SelectMaps db q a).1.err = some (sqlErr e q a) ∧
      (SelectMaps db q a).1.ret = none) ∧
    (∀ maps, db.queryxContext q a = .ok ⟨maps.map Except.ok, none, none⟩ →
      (SelectMaps db q a).1.ret = some maps ∧ (SelectMaps db q a).1.err = none) ∧
    (∀ (pre : List RowMap) (e : GoError) (rest : List (Except GoError RowMap))
        (iterE closeE : Option GoError),
      db.queryxContext q a = .ok ⟨pre.map Except.ok ++ .error e :: rest, iterE, closeE⟩ →
      (SelectMaps db q a).1.err = combine (some (sqlErr e q a)) closeE ∧
      (SelectMaps db q a).1.ret = none) ∧
    (∀ (maps : List RowMap) (e : GoError) (closeE : Option GoError),
      db.queryxContext q a = .ok ⟨maps.map Except.ok, some e, closeE⟩ →
      (SelectMaps db q a).1.err = combine (some (sqlErr e q a)) closeE ∧
      (SelectMaps db q a).1.ret = none) ∧
    (∀ (maps : List RowMap) (closeE : Option GoError),
      db.queryxContext q a = .ok ⟨maps.map Except.ok, none, closeE⟩ →
      (SelectMaps db q a).1.err = closeE ∧ (SelectMaps db q a).1.ret = some maps) := by
  refine ⟨?_, ?_, ?_, ?_, ?_, ?_, ?_, ?_, ?_, ?_, ?_, ?_, ?_, ?_⟩
  · intro res e h; simp [Exec, h]
  · intro res h; simp [Exec, h]
  · intro e h; simp [Select, h]
  · intro rs h; simp [Select, h]
  · intro e h; simp [Get, h]
  · intro r h; simp [Get, h]
  · intro e h; simp [GetMap, h]
  · intro e h1 h2; simp [GetMap, h1, h2]
  · intro h1 h2; simp [GetMap, h1, h2]
  · intro e h; simp [SelectMaps, h]
  · intro maps h
    simp [SelectMaps, h, selectMapsBody, selectMapsLoop_all_ok, combine]
  · intro pre e rest iterE closeE h
    obtain ⟨hints, hloop⟩ := selectMapsLoop_first_error pre e rest (-1) [] []
    constructor
    · simp only [SelectMaps, h, selectMapsBody, hloop]
    · simp only [SelectMaps, h, selectMapsBody, hloop]
  · intro maps e closeE h
    constructor
    · simp only [SelectMaps, h, selectMapsBody, selectMapsLoop_all_ok]
    · simp only [SelectMaps, h, selectMapsBody, selectMapsLoop_all_ok]
  · intro maps closeE h
    constructor
    · simp only [SelectMaps, h, selectMapsBody, selectMapsLoop_all_ok, combine]
    · simp only [SelectMaps, h, selectMapsBody, selectMapsLoop_all_ok, List.nil_append]

theorem query_helpers_wrap_driver_errors_witness :
    dbOk.execContext "UPDATE test_users SET name=$1" [.vStr "x"] = (⟨0, 1⟩, none) ∧
    (Exec dbOk "UPDATE test_users SET name=$1" [.vStr "x"]).1 = (⟨0, 1⟩, none) ∧
    dbOk.queryxContext "SELECT id, login FROM test_users" [] =
      .ok ⟨[sampleRow].map Except.ok, none, none⟩ ∧
    (SelectMaps dbOk "SELECT id, login FROM test_users" []).1.ret = some [sampleRow] ∧
    (SelectMaps dbOk "SELECT id, login FROM test_users" []).1.err = none ∧
    dbScanAndCloseFail.queryxContext "SELECT id FROM test_users" [] =
      .ok ⟨[.error (.driver "scan: type mismatch")], none, some (.driver "close failed")⟩ ∧
    (SelectMaps dbScanAndCloseFail "SELECT id FROM test_users" []).1.err =
      combine (some (sqlErr (.driver "scan: type mismatch") "SELECT id FROM test_users" []))
        (some (.driver "close failed")) ∧
    (SelectMaps dbScanAndCloseFail "SELECT id FROM test_users" []).1.ret = none ∧
    dbCloseFail.queryxContext "SELECT login FROM test_users" [] =
      .ok ⟨[], none, some (.driver "close failed")⟩ ∧
    (SelectMaps dbCloseFail "SELECT login FROM test_users" []).1.err =
      some (.driver "close failed") ∧
    (SelectMaps dbCloseFail "SELECT login FROM test_users" []).1.ret = some [] :=
  ⟨rfl,
   (query_helpers_wrap_driver_errors dbOk "UPDATE test_users SET name=$1"
     [.vStr "x"]).2.1 ⟨0, 1⟩ rfl,
   rfl,
   ((query_helpers_wrap_driver_errors dbOk "SELECT id, login FROM test_users"
     []).2.2.2.2.2.2.2.2.2.2.1 [sampleRow] rfl).1,
   ((query_helpers_wrap_driver_errors dbOk "SELECT id, login FROM test_users"
     []).2.2.2.2.2.2.2.2.2.2.1 [sampleRow] rfl).2,
   rfl,
   ((query_helpers_wrap_driver_errors dbScanAndCloseFail "SELECT id FROM test_users"
     []).2.2.2.2.2.2.2.2.2.2.2.1 [] (.driver "scan: type mismatch") [] none
     (some (.driver "close failed")) rfl).1,
   ((query_helpers_wrap_driver_errors dbScanAndCloseFail "SELECT id FROM test_users"
     []).2.2.2.2.2.2.2.2.2.2.2.1 [] (.driver "scan: type mismatch") [] none
     (some (.driver "close failed")) rfl).2,
   rfl,
   ((query_helpers_wrap_driver_errors dbCloseFail "SELECT login FROM test_users"
     []).2.2.2.2.2.2.2.2.2.2.2.2.2 [] (some (.driver "close failed")) rfl).1,
   ((query_helpers_wrap_driver_errors dbCloseFail "SELECT login FROM test_users"
     []).2.2.2.2.2.2.2.2.2.2.2.2.2 [] (some (.driver "close failed")) rfl).2⟩

/-- C6: every named-parameter variant first expands named placeholders via
`namedQuery`; a binding failure is returned (wrapped with query text and the
expansion's argument list) with no driver invocation at all, and a successful
expansion delegates to the corresponding positional helper on the rebound
query and expanded argument list. -/
theorem named_variants_expand_then_delegate (db : Db) (q : String) (arg : Arg) :
    (∀ nq args0 e, db.named q arg = (nq, args0, some e) →
      NamedExec db q arg = ((none, some (sqlErr e q args0)), []) ∧
      NamedSelect db q arg = ((none, some (sqlErr e q args0)), []) ∧
      NamedGet db q arg = ((none, some (sqlErr e q args0)), []) ∧
      NamedSelectMaps db q arg = (⟨none, some (sqlErr e q args0), false, []⟩, []) ∧
      NamedGetMap db q arg = ((none, some (sqlErr e q args0)), [])) ∧
    (∀ nq args0, db.named q arg = (nq, args0, none) →
      NamedExec db q arg =
        ((some (Exec db (db.rebind nq) args0).1.1, (Exec db (db.rebind nq) args0).1.2),
         (Exec db (db.rebind nq) args0).2) ∧
      NamedSelect db q arg = Select db (db.rebind nq) args0 ∧
      NamedGet db q arg = Get db (db.rebind nq) args0 ∧
      NamedSelectMaps db q arg = SelectMaps db (db.rebind nq) args0 ∧
      NamedGetMap db q arg = GetMap db (db.rebind nq) args0) := by
  constructor
  · intro nq args0 e h
    refine ⟨?_, ?_, ?_, ?_, ?_⟩ <;>
      simp [NamedExec, NamedSelect, NamedGet, NamedSelectMaps, NamedGetMap,
        namedQuery, h]
  · intro nq args0 h
    refine ⟨?_, ?_, ?_, ?_, ?_⟩ <;>
      simp [NamedExec, NamedSelect, NamedGet, NamedSelectMaps, NamedGetMap,
        namedQuery, h]

theorem named_variants_expand_then_delegate_witness :
    dbNamedFail.named "SELECT :x" [] = ("", [], some (.driver "could not find name x")) ∧
    NamedExec dbNamedFail "SELECT :x" [] =
      ((none, some (sqlErr (.driver "could not find name x") "SELECT :x" [])), []) ∧
    dbOk.named "SELECT :login" [("login", .vStr "petrov")] =
      ("SELECT :login", [.vStr "petrov"], none) ∧
    NamedSelect dbOk "SELECT :login" [("login", .vStr "petrov")] =
      Select dbOk (dbOk.rebind "SELECT :login") [.vStr "petrov"] :=
  ⟨rfl,
   ((named_variants_expand_then_delegate dbNamedFail "SELECT :x" []).1 "" []
     (.driver "could not find name x") rfl).1,
   rfl,
   ((named_variants_expand_then_delegate dbOk "SELECT :login"
     [("login", .vStr "petrov")]).2 "SELECT :login" [.vStr "petrov"] rfl).2.1⟩

/-- C7: after a successful query, `SelectMaps` closes the cursor before
returning on every path, and the close result is combined with the body's
primary error — no cause is discarded. -/
theorem selectMaps_closes_cursor_combines (db : Db) (q : String) (a : List Value)
    (rows : RowsData) (hq : db.queryxContext q a = .ok rows) :
    (SelectMaps db q a).1.closed = true ∧
    (SelectMaps db q a).1.err = combine (selectMapsBody rows q a).2.1 rows.closeErr ∧
    errList (SelectMaps db q a).1.err =
      errList (selectMapsBody rows q a).2.1 ++ errList rows.closeErr := by
  simp [SelectMaps, hq, errList_combine]

theorem selectMaps_closes_cursor_combines_witness :
    dbScanAndCloseFail.queryxContext "SELECT id FROM test_users" [] =
      .ok ⟨[.error (.driver "scan: type mismatch")], none, some (.driver "close failed")⟩ ∧
    ((SelectMaps dbScanAndCloseFail "SELECT id FROM test_users" []).1.closed = true ∧
     (SelectMaps dbScanAndCloseFail "SELECT id FROM test_users" []).1.err =
       combine (selectMapsBody ⟨[.error (.driver "scan: type mismatch")], none,
           some (.driver "close failed")⟩ "SELECT id FROM test_users" []).2.1
         (some (.driver "close failed")) ∧
     errList (SelectMaps dbScanAndCloseFail "SELECT id FROM test_users" []).1.err =
       errList (selectMapsBody ⟨[.error (.driver "scan: type mismatch")], none,
           some (.driver "close failed")⟩ "SELECT id FROM test_users" []).2.1 ++
         errList (some (.driver "close failed"))) :=
  ⟨rfl, selectMaps_closes_cursor_combines dbScanAndCloseFail
    "SELECT id FROM test_users" []
    ⟨[.error (.driver "scan: type mismatch")], none, some (.driver "close failed")⟩ rfl⟩

/-- C8 counterexample: a single-row result set with two columns.  The only
mapping is allocated as the plain empty map literal — no size hint — rather
than being sized to the first row's column count of 2. -/
theorem selectMaps_first_map_unsized :
    (SelectMaps dbOneRowTwoCols "SELECT a, b FROM t" []).1.ret =
      some [[("a", .vInt 1), ("b", .vInt 2)]] ∧
    (SelectMaps dbOneRowTwoCols "SELECT a, b FROM t" []).1.hints = [none] ∧
    [(none : Option Nat)] ≠ [some 2] :=
  ⟨rfl, rfl, by decide⟩

/-- C8 (amended): `SelectMaps` builds exactly one mapping per result row.
The first row's mapping is allocated without a size hint; each subsequent
mapping is pre-sized to the column count of the previous row, which equals
the column count of the first row whenever the rows' column counts agree. -/
theorem selectMaps_one_mapping_per_row (db : Db) (q : String) (a : List Value)
    (maps : List RowMap) (closeE : Option GoError)
    (hq : db.queryxContext q a = .ok ⟨maps.map Except.ok, none, closeE⟩) :
    (SelectMaps db q a).1.ret = some maps ∧
    (SelectMaps db q a).1.hints.length = maps.length ∧
    (SelectMaps db q a).1.hints = loopHints maps (-1) ∧
    ∀ m rest, maps = m :: rest → (∀ x ∈ maps, x.length = m.length) →
      (SelectMaps db q a).1.hints = none :: List.replicate rest.length (some m.length) := by
  have hbody : selectMapsBody ⟨maps.map Except.ok, none, closeE⟩ q a =
      (some maps, none, loopHints maps (-1)) := by
    simp [selectMapsBody, selectMapsLoop_all_ok]
  refine ⟨?_, ?_, ?_, ?_⟩
  · simp [SelectMaps, hq, hbody]
  · simp [SelectMaps, hq, hbody, loopHints_length]
  · simp [SelectMaps, hq, hbody]
  · intro m rest hm hu
    subst hm
    have h1 : loopHints (m :: rest) (-1) =
        none :: loopHints rest (Int.ofNat m.length) := by
      norm_num [loopHints]
    have h2 : loopHints rest (Int.ofNat m.length) =
        List.replicate rest.length (some m.length) := by
      have := loopHints_uniform m.length rest fun x hx => hu x (by simp [hx])
      simpa [Int.ofNat_eq_natCast] using this
    simp only [SelectMaps, hq, hbody, h1, h2]

theorem selectMaps_one_mapping_per_row_witness :
    dbOk.queryxContext "SELECT id, login FROM test_users" [] =
      .ok ⟨[sampleRow].map Except.ok, none, none⟩ ∧
    (SelectMaps dbOk "SELECT id, login FROM test_users" []).1.ret = some [sampleRow] ∧
    (SelectMaps dbOk "SELECT id, login FROM test_users" []).1.hints.length =
      [sampleRow].length ∧
    (SelectMaps dbOk "SELECT id, login FROM test_users" []).1.hints =
      loopHints [sampleRow] (-1) :=
  ⟨rfl,
   (selectMaps_one_mapping_per_row dbOk "SELECT id, login FROM test_users" []
     [sampleRow] none rfl).1,
   (selectMaps_one_mapping_per_row dbOk "SELECT id, login FROM test_users" []
     [sampleRow] none rfl).2.1,
   (selectMaps_one_mapping_per_row dbOk "SELECT id, login FROM test_users" []
     [sampleRow] none rfl).2.2.1⟩

/-- C9: named-parameter expansion is deterministic: two runs of `namedQuery`
with the same expansion routine, on identical query text and identical
argument maps, produce identical positional query text, argument lists and
errors. -/
theorem namedQuery_deterministic (db db' : Db) (q q' : String) (a a' : Arg)
    (hnamed : db.named = db'.named) (hq : q = q') (ha : a = a') :
    namedQuery db q a = namedQuery db' q' a' := by
  subst hq
  subst ha
  simp [namedQuery, hnamed]

theorem namedQuery_deterministic_witness :
    dbOk.named = dbOk.named ∧
    ("SELECT :login" : String) = "SELECT :login" ∧
    ([("login", .vStr "petrov")] : Arg) = [("login", .vStr "petrov")] ∧
    namedQuery dbOk "SELECT :login" [("login", .vStr "petrov")] =
      namedQuery dbOk "SELECT :login" [("login", .vStr "petrov")] :=
  ⟨rfl, rfl, rfl,
   namedQuery_deterministic dbOk dbOk "SELECT :login" "SELECT :login"
     [("login", .vStr "petrov")] [("login", .vStr "petrov")] rfl rfl rfl⟩

/-- C10: whenever `SelectMaps` returns a nil error the returned slice is
non-nil; a successful query yielding zero rows (with a clean close) produces
the empty slice, never the nil slice. -/
theorem selectMaps_success_ret_non_nil (db : Db) (q : String) (a : List Value) :
    ((SelectMaps db q a).1.err = none → (SelectMaps db q a).1.ret ≠ none) ∧
    (∀ closeE, db.queryxContext q a = .ok ⟨[], none, closeE⟩ → closeE = none →
      (SelectMaps db q a).1.ret = some [] ∧ (SelectMaps db q a).1.err = none) := by
  constructor
  · intro hnil
    cases hqr : db.queryxContext q a with
    | error e => simp [SelectMaps, hqr] at hnil
    | ok rows =>
      rcases hloop : selectMapsLoop rows.items (-1) [] [] with ⟨acc, hints⟩ | ⟨e2, hints⟩
      · cases hiter : rows.iterErr with
        | none => simp [SelectMaps, hqr, selectMapsBody, hloop, hiter]
        | some e2 =>
          have herr : (SelectMaps db q a).1.err =
              combine (some (sqlErr e2 q a)) rows.closeErr := by
            simp [SelectMaps, hqr, selectMapsBody, hloop, hiter]
          rw [herr] at hnil
          cases hc : rows.closeErr <;> rw [hc] at hnil <;> simp [combine] at hnil
      · have herr : (SelectMaps db q a).1.err =
            combine (some (sqlErr e2 q a)) rows.closeErr := by
          simp [SelectMaps, hqr, selectMapsBody, hloop]
        rw [herr] at hnil
        cases hc : rows.closeErr <;> rw [hc] at hnil <;> simp [combine] at hnil
  · intro closeE hqr hclose
    subst hclose
    simp [SelectMaps, hqr, selectMapsBody, selectMapsLoop, combine]

theorem selectMaps_success_ret_non_nil_witness :
    (SelectMaps dbOk "SELECT id, login FROM test_users" []).1.err = none ∧
    (SelectMaps dbOk "SELECT id, login FROM test_users" []).1.ret ≠ none ∧
    dbNamedFail.queryxContext "SELECT id FROM empty_table" [] = .ok ⟨[], none, none⟩ ∧
    (SelectMaps dbNamedFail "SELECT id FROM empty_table" []).1.ret = some [] ∧
    (SelectMaps dbNamedFail "SELECT id FROM empty_table" []).1.err = none :=
  ⟨rfl,
   (selectMaps_success_ret_non_nil dbOk "SELECT id, login FROM test_users" []).1 rfl,
   rfl,
   ((selectMaps_success_ret_non_nil dbNamedFail "SELECT id FROM empty_table" []).2
     none rfl rfl).1,
   ((selectMaps_success_ret_non_nil dbNamedFail "SELECT id FROM empty_table" []).2
     none rfl rfl).2⟩
